import Mathlib

/-!
# Verification of the SEO blog-creation pipeline

A shallow embedding, in Lean 4, of the pure computational core of the
repository (`analyzer.py`, `serp.py`, `main_streamlit.py`).  External
libraries (the HTML parser, the HTTP clients, the LLM providers) are
modelled as explicit oracle parameters; Python dictionaries with optional
keys are modelled as structures with `Option` fields; Python exceptions are
modelled with `Except`.  All definitions are computable so that concrete
runs can be evaluated inside proofs.
-/

namespace SEOBlog

/-! ## Python-style character classes and string primitives

Python's `str.lower`, `str.split`, `re` word characters (`\w`) and
whitespace (`\s`) restricted to ASCII, which is the fragment the
pipeline's regexes rely on. -/

/-- ASCII model of Python's regex word character `\w`: letters, digits, underscore. -/
def isWordChar (c : Char) : Bool :=
  c.isAlphanum || c == '_'

/-- ASCII model of Python's regex whitespace `\s` (also used by `str.strip()`/`str.split()`). -/
def isPySpace (c : Char) : Bool :=
  c == ' ' || c == '\t' || c == '\n' || c == '\r' || c == '\x0b' || c == '\x0c'

/-- Python's `str.lower()` on the ASCII fragment: character-wise lowering. -/
def pyLower (s : String) : String :=
  String.mk (s.data.map Char.toLower)

/-- Split a list at the end of its maximal leading run of characters
satisfying `p`: returns `(takeWhile p l, dropWhile p l)`. -/
def spanRun (p : Char → Bool) : List Char → List Char × List Char
  | [] => ([], [])
  | c :: cs =>
    if p c then
      let r := spanRun p cs
      (c :: r.1, r.2)
    else
      ([], c :: cs)

/-- Python's `str.split()` with no argument: the maximal runs of
non-whitespace characters (leading/trailing/repeated whitespace ignored).
Fuelled structural recursion; one unit of fuel is consumed per character,
so `fuel = cs.length` runs to completion. -/
def pySplitWsF : Nat → List Char → List (List Char)
  | 0, _ => []
  | _ + 1, [] => []
  | fuel + 1, c :: cs =>
    if isPySpace c then
      pySplitWsF fuel cs
    else
      let r := spanRun (fun d => !isPySpace d) cs
      (c :: r.1) :: pySplitWsF fuel r.2

/-- `s.split()` on a character list. -/
def pySplitWs (cs : List Char) : List (List Char) :=
  pySplitWsF cs.length cs

/-- The token list of `re.findall(r'\b\w+\b', s)`: the maximal runs of word
characters of `s` (fuelled as in `pySplitWsF`). -/
def wordRunsF : Nat → List Char → List (List Char)
  | 0, _ => []
  | _ + 1, [] => []
  | fuel + 1, c :: cs =>
    if isWordChar c then
      let r := spanRun isWordChar cs
      (c :: r.1) :: wordRunsF fuel r.2
    else
      wordRunsF fuel cs

/-- The maximal word-character runs of a character list. -/
def wordRuns (cs : List Char) : List (List Char) :=
  wordRunsF cs.length cs

/-! ## `collections.Counter.most_common(n)`

`Counter(xs)` iterates `xs` in order, so its keys appear in order of first
occurrence.  `most_common(n)` (via `heapq.nlargest`) is equivalent to a
stable descending sort on counts, truncated to `n`. -/

/-- The distinct elements of a list in order of first occurrence
(the key order of `collections.Counter`).  Fuelled structural recursion;
each step drops at least one element, so `fuel = l.length` runs to
completion. -/
def firstKeysF {α : Type} [DecidableEq α] : Nat → List α → List α
  | 0, _ => []
  | _ + 1, [] => []
  | fuel + 1, x :: xs => x :: firstKeysF fuel (xs.filter (fun y => y ≠ x))

/-- First-occurrence deduplication. -/
def firstKeys {α : Type} [DecidableEq α] (l : List α) : List α :=
  firstKeysF l.length l

/-- Stable descending insertion by count: the new element goes before the
first element whose count does not exceed it (so after all strictly larger
counts and before all equal counts, preserving encounter order). -/
def insertByCount {α : Type} (x : α × Nat) : List (α × Nat) → List (α × Nat)
  | [] => [x]
  | y :: ys => if y.2 ≤ x.2 then x :: y :: ys else y :: insertByCount x ys

/-- Stable sort of (key, count) pairs by descending count, the order
produced by Python's `Counter.most_common`. -/
def sortByCountDesc {α : Type} : List (α × Nat) → List (α × Nat)
  | [] => []
  | x :: xs => insertByCount x (sortByCountDesc xs)

/-- `Counter(xs).most_common(n)` keys: distinct elements of `xs`, stably
sorted by descending multiplicity, truncated to `n`. -/
def mostCommon {α : Type} [DecidableEq α] (n : Nat) (xs : List α) : List α :=
  let pairs := (firstKeys xs).map (fun k => (k, xs.count k))
  ((sortByCountDesc pairs).take n).map Prod.fst

/-! ## The phrase regex `\b[\w\s]{10,30}\b`

A direct simulation of the backtracking regex engine on this pattern:
at each position, a word boundary must hold, the engine greedily consumes
up to 30 word-or-space characters, then backtracks the repetition down to
10 until a closing word boundary holds; `findall` scans left to right and
resumes after each match. -/

/-- The character class `[\w\s]`. -/
def isPhraseChar (c : Char) : Bool :=
  isWordChar c || isPySpace c

/-- Whether an optional character (string edge = `none`) is a word character. -/
def wordish : Option Char → Bool
  | none => false
  | some c => isWordChar c

/-- The zero-width assertion `\b` between two adjacent positions. -/
def isBoundary (a b : Option Char) : Bool :=
  wordish a != wordish b

/-- Backtracking of the greedy `{10,30}` repetition: try length `n`,
then `n - 1`, ..., stopping below 10; succeed at the first length whose
closing position is a word boundary. -/
def tryLens (cs : List Char) : Nat → Option Nat
  | 0 => none
  | n + 1 =>
    if n + 1 < 10 then none
    else if isBoundary (cs.get? n) (cs.get? (n + 1)) then some (n + 1)
    else tryLens cs n

/-- Attempt a match of `\b[\w\s]{10,30}\b` at the head of `cs`, with `prev`
the character preceding the current position; returns the match length. -/
def phraseMatchAt (prev : Option Char) (cs : List Char) : Option Nat :=
  if isBoundary prev cs.head? then
    tryLens cs (min 30 (spanRun isPhraseChar cs).1.length)
  else none

/-- The left-to-right non-overlapping scan of `re.findall`: on a match,
emit it and resume after its end; otherwise advance one position.
Fuelled recursion; the fuel is consumed at most once per input character
(every match has length at least 10), so `fuel = cs.length` makes the scan
run to completion. -/
def phraseScanF : Nat → Option Char → List Char → List (List Char)
  | 0, _, _ => []
  | _ + 1, _, [] => []
  | fuel + 1, prev, c :: rest =>
    match phraseMatchAt prev (c :: rest) with
    | some len =>
      (c :: rest).take len ::
        phraseScanF fuel ((c :: rest).get? (len - 1)) ((c :: rest).drop len)
    | none => phraseScanF fuel (some c) rest

/-- The match list of `re.findall(r'\b[\w\s]{10,30}\b', ·)` over a
character list. -/
def phraseScan (cs : List Char) : List (List Char) :=
  phraseScanF cs.length none cs

/-- `re.findall(r'\b[\w\s]{10,30}\b', s)` as a list of strings. -/
def phraseTokens (s : String) : List String :=
  (phraseScan s.data).map (fun l => String.mk l)

/-- The word tokens `re.findall(r'\b\w+\b', s)` as a list of strings. -/
def wordTokens (s : String) : List String :=
  (wordRuns s.data).map (fun l => String.mk l)

/-! ## Substring search, `str.replace`, `str.split(sep)`, `str.strip()` -/

/-- Index of the first occurrence of `pat` in `cs` (`str.find`). -/
def findSubIdx (pat : List Char) : List Char → Option Nat
  | [] => if pat.isEmpty then some 0 else none
  | c :: cs =>
    if pat.isPrefixOf (c :: cs) then some 0
    else (findSubIdx pat cs).map (· + 1)

/-- Python's `pat in s` substring test. -/
def hasSub (pat cs : List Char) : Bool :=
  (findSubIdx pat cs).isSome

/-- `s.split(sep)[0]` for a nonempty separator: everything before the first
occurrence of `sep`, or all of `s` when `sep` does not occur. -/
def cutBefore (pat cs : List Char) : List Char :=
  match findSubIdx pat cs with
  | some i => cs.take i
  | none => cs

/-- Python's `s.replace(pat, '')` for a nonempty `pat`: removes every
non-overlapping occurrence of `pat`, scanning left to right.  Fuelled
structural recursion; each step consumes at least `pat.length ≥ 1`
characters, so `fuel = cs.length + 1` runs to completion. -/
def removeAllSubF (pat : List Char) : Nat → List Char → List Char
  | 0, cs => cs
  | fuel + 1, cs =>
    if pat.isEmpty then cs
    else
      match findSubIdx pat cs with
      | some i => cs.take i ++ removeAllSubF pat fuel (cs.drop (i + pat.length))
      | none => cs

/-- `s.replace(pat, '')` on character lists. -/
def removeAllSub (pat : List Char) (cs : List Char) : List Char :=
  removeAllSubF pat (cs.length + 1) cs

/-- Python's `s.split(sep)` for a nonempty separator (fuelled as in
`removeAllSubF`). -/
def pySplitSubF (sep : List Char) : Nat → List Char → List (List Char)
  | 0, cs => [cs]
  | fuel + 1, cs =>
    if sep.isEmpty then [cs]
    else
      match findSubIdx sep cs with
      | some i => cs.take i :: pySplitSubF sep fuel (cs.drop (i + sep.length))
      | none => [cs]

/-- `s.split(sep)` on character lists. -/
def pySplitSub (sep : List Char) (cs : List Char) : List (List Char) :=
  pySplitSubF sep (cs.length + 1) cs

/-- Python's `s.strip()` (default whitespace) on character lists. -/
def pyStrip (cs : List Char) : List Char :=
  ((cs.dropWhile isPySpace).reverse.dropWhile isPySpace).reverse

/-- The blank-line separator `"\n\n"` as characters. -/
def nlnl : List Char := ['\n', '\n']

/-- Blocks joined by blank lines, on character lists (the `List Char` view
of `"\n\n".join`). -/
def joinBlocks : List (List Char) → List Char
  | [] => []
  | [p] => p
  | p :: q :: ps => p ++ '\n' :: '\n' :: joinBlocks (q :: ps)

/-- Python's `sep.join(parts)`. -/
def joinSep (sep : String) : List String → String
  | [] => ""
  | x :: xs => xs.foldl (fun acc y => acc ++ sep ++ y) x

/-- Number of newline characters in a string (so a nonempty string has
`countNL s + 1` lines). -/
def countNL (s : String) : Nat :=
  s.data.count '\n'

/-! ## Data model (`analyzer.py`)

Python dictionaries with possibly-absent keys become structures with
`Option` fields; the `.get(key, default)` idiom becomes `Option.getD`. -/

/-- One entry of the provider's `organic_results` list (all keys optional). -/
structure OrganicIn where
  title : Option String
  link : Option String
  date : Option String
  snippet : Option String
  position : Option String
  displayed_link : Option String
  deriving Repr, DecidableEq

/-- One entry of the provider's `related_questions` list. -/
structure QuestionIn where
  question : Option String
  snippet : Option String
  title : Option String
  deriving Repr, DecidableEq

/-- One entry of the provider's `related_searches` list. -/
structure SearchIn where
  query : Option String
  deriving Repr, DecidableEq

/-- The provider's `search_parameters` map; only the key `q` is ever read. -/
structure SearchParams where
  q : Option String
  deriving Repr, DecidableEq

/-- The raw search-provider response dictionary. -/
structure SerpData where
  organic_results : Option (List OrganicIn)
  related_questions : Option (List QuestionIn)
  related_searches : Option (List SearchIn)
  search_parameters : Option SearchParams
  deriving Repr, DecidableEq

/-- A normalized organic result (`extract_organic_results` output entry):
every field present, absent inputs replaced by `""`. -/
structure OrganicOut where
  title : String
  link : String
  date : String
  snippet : String
  position : String
  displayed_link : String
  deriving Repr, DecidableEq

/-- A normalized "people also ask" question. -/
structure QuestionOut where
  question : String
  snippet : String
  title : String
  deriving Repr, DecidableEq

/-- A normalized related search. -/
structure SearchOut where
  query : String
  deriving Repr, DecidableEq

/-- The dictionary returned by `extract_serp_data`. -/
structure SerpAnalysis where
  organic_results : List OrganicOut
  paa_questions : List QuestionOut
  related_searches : List SearchOut
  search_parameters : SearchParams
  deriving Repr, DecidableEq

/-- The `content_structure` sub-dictionary of an analysis.  Python's true
division is modelled exactly with rationals. -/
structure ContentStructure where
  total_paragraphs : Nat
  avg_paragraph_length : Rat
  deriving Repr, DecidableEq

/-- The `content_elements` sub-dictionary: markup node counts. -/
structure ContentElements where
  lists : Nat
  tables : Nat
  images : Nat
  links : Nat
  headings : Nat
  deriving Repr, DecidableEq

/-- The analysis dictionary built by `analyze_content`.  The two inner
dictionaries may be the empty dictionary `{}` (their producers return `{}`
on an internal error), modelled as `none`. -/
structure Analysis where
  word_count : Nat
  common_phrases : List String
  content_structure : Option ContentStructure
  key_topics : List String
  content_elements : Option ContentElements
  deriving Repr, DecidableEq

/-- One scraped page (`{'url', 'content', 'analysis'}`); `analysis = none`
models the empty dictionary produced when content analysis fails. -/
structure Profile where
  url : String
  content : String
  analysis : Option Analysis
  deriving Repr, DecidableEq

/-- The external HTML library (BeautifulSoup), out of scope of this
repository: an oracle that extracts plain text and counts markup elements,
and may raise (`Except.error`) on any input. -/
structure SoupLib where
  getText : String → Except String String
  elementCounts : String → Except String ContentElements

/-! ## Content analyzer (`analyzer.py`) -/

/-- `extract_organic_results`: the per-article loop, each absent field
defaulted to the empty string. -/
def extract_organic_results (data : SerpData) : List OrganicOut :=
  (data.organic_results.getD []).foldl
    (fun results article =>
      results ++
        [{ title := article.title.getD ""
           link := article.link.getD ""
           date := article.date.getD ""
           snippet := article.snippet.getD ""
           position := article.position.getD ""
           displayed_link := article.displayed_link.getD "" }]) []

/-- `extract_paa_questions`: the per-question loop. -/
def extract_paa_questions (data : SerpData) : List QuestionOut :=
  (data.related_questions.getD []).foldl
    (fun questions question =>
      questions ++
        [{ question := question.question.getD ""
           snippet := question.snippet.getD ""
           title := question.title.getD "" }]) []

/-- `extract_related_searches`: the list comprehension. -/
def extract_related_searches (data : SerpData) : List SearchOut :=
  (data.related_searches.getD []).map (fun search => { query := search.query.getD "" })

/-- `extract_serp_data`. -/
def extract_serp_data (data : SerpData) : SerpAnalysis :=
  { organic_results := extract_organic_results data
    paa_questions := extract_paa_questions data
    related_searches := extract_related_searches data
    search_parameters := data.search_parameters.getD { q := none } }

/-- `extract_common_phrases`: regex-extract phrases from the lowercased
text, count them, return the 10 most common.  (The `try` body cannot raise:
regex search, lowering and counting are total.) -/
def extract_common_phrases (text_content : String) : List String :=
  mostCommon 10 (phraseTokens (pyLower text_content))

/-- `extract_key_topics`: word tokens of the lowercased text, 10 most
common. -/
def extract_key_topics (text_content : String) : List String :=
  mostCommon 10 (wordTokens (pyLower text_content))

/-- `analyze_content_structure`: paragraphs are the chunks of
`text.split('\n\n')`; the average paragraph length divides exactly (Python
float division modelled by `Rat`).  `str.split` never returns an empty
list, and the `try` body is otherwise total, so the result is never the
empty dictionary; the `Option` mirrors the code's `{}`-on-error type. -/
def analyze_content_structure (text_content : String) : Option ContentStructure :=
  let paragraphs := pySplitSub ['\n', '\n'] text_content.data
  some
    { total_paragraphs := paragraphs.length
      avg_paragraph_length :=
        if paragraphs.isEmpty then 0
        else ((paragraphs.map (fun p => (pySplitWs p).length)).sum : Rat) / paragraphs.length }

/-- `identify_content_elements`: parse the original markup and count
elements; any parser exception is caught and the empty dictionary returned. -/
def identify_content_elements (soup : SoupLib) (content : String) : Option ContentElements :=
  match soup.elementCounts content with
  | .ok e => some e
  | .error _ => none

/-- `analyze_content`: extract plain text (falling back to the raw content
when extraction yields the empty string), then build the analysis
dictionary; any exception inside the `try` block (only the external parser
can raise) is caught and the empty dictionary (`none`) returned. -/
def analyze_content (soup : SoupLib) (content : String) : Option Analysis :=
  match soup.getText content with
  | .error _ => none
  | .ok t =>
    let text_content := if t = "" then content else t
    some
      { word_count := (pySplitWs text_content.data).length
        common_phrases := extract_common_phrases text_content
        content_structure := analyze_content_structure text_content
        key_topics := extract_key_topics text_content
        content_elements := identify_content_elements soup content }

/-! ## Formatting helpers (`analyzer.py`) -/

/-- `format_top_articles`: one `- title (URL: link)` line for each of the
first 5 results.  (The `try` body is total here: every entry of a
normalized result list has its keys.) -/
def format_top_articles (results : List OrganicOut) : String :=
  joinSep "\n"
    ((results.take 5).map (fun result => "- " ++ result.title ++ " (URL: " ++ result.link ++ ")"))

/-- `format_paa_questions`: one `- question` line per question. -/
def format_paa_questions (questions : List QuestionOut) : String :=
  joinSep "\n" (questions.map (fun q => "- " ++ q.question))

/-- `format_related_searches`: one `- query` line per related search. -/
def format_related_searches (searches : List SearchOut) : String :=
  joinSep "\n" (searches.map (fun search => "- " ++ search.query))

/-- The per-profile summary of `format_competitor_content`:
`data.get('analysis', {})` then `.get('word_count', 0)` /
`.get('key_topics', [])`. -/
def competitorSummaryLine (data : Profile) : String :=
  "URL: " ++ data.url ++ "\nWord Count: " ++
    toString (match data.analysis with | none => 0 | some a => a.word_count) ++
    "\nKey Topics: " ++
    joinSep ", " ((match data.analysis with | none => [] | some a => a.key_topics).take 5)

/-- `format_competitor_content`: per-profile summary blocks joined by blank
lines. -/
def format_competitor_content (scraped_data : List Profile) : String :=
  joinSep "\n\n"
    (scraped_data.foldl (fun summaries data => summaries ++ [competitorSummaryLine data]) [])

/-- The per-profile summary of `format_citation_data` (textually the same
f-string as in `format_competitor_content`). -/
def citationSummaryLine (data : Profile) : String :=
  "URL: " ++ data.url ++ "\nWord Count: " ++
    toString (match data.analysis with | none => 0 | some a => a.word_count) ++
    "\nKey Topics: " ++
    joinSep ", " ((match data.analysis with | none => [] | some a => a.key_topics).take 5)

/-- `format_citation_data`: per-citation summary blocks joined by blank
lines. -/
def format_citation_data (citation_data : List Profile) : String :=
  joinSep "\n\n"
    (citation_data.foldl (fun summaries data => summaries ++ [citationSummaryLine data]) [])

/-! ## Context assembly (`prepare_llm_context`)

The analyzer object's `article_intent` / `secondary_keywords` state (set
once by `set_content_parameters`) is passed explicitly. -/

/-- `prepare_llm_context`: the exact f-string of the source, with its fixed
section order. -/
def prepare_llm_context (article_intent : String) (secondary_keywords : List String)
    (scraped_data : List Profile) (serp_data : SerpData) (deep_thinking : String)
    (citation_data : List Profile) : String :=
  let serp_analysis := extract_serp_data serp_data
  let citations_formatted := format_citation_data citation_data
  "\nSearch Query: " ++ ((serp_data.search_parameters.getD { q := none }).q.getD "") ++
  "\n\nContent Parameters:\nArticle Intent: " ++ article_intent ++
  "\nSecondary Keywords: " ++ joinSep ", " secondary_keywords ++
  "\n\n--- Top Ranking Articles ---\n" ++ format_top_articles serp_analysis.organic_results ++
  "\n\n--- People Also Ask Questions ---\n" ++ format_paa_questions serp_analysis.paa_questions ++
  "\n\n--- Related Searches ---\n" ++ format_related_searches serp_analysis.related_searches ++
  "\n\n--- Competitor Content Analysis ---\n" ++ format_competitor_content scraped_data ++
  "\n\n--- Deep Research Thinking Process ---\n" ++ deep_thinking ++
  "\n\n--- Citation Content from Deep Research ---\n" ++ citations_formatted ++
  "\n"

/-- `generate_research_report`: pure formatting; the wall-clock timestamp
is an explicit parameter. -/
def generate_research_report (timestamp : String) (deep_thinking : String)
    (scraped_data : List Profile) : String :=
  "=== Research Report ===\n\nDeep Research Thinking Process:\n" ++ deep_thinking ++
  "\n\n--- Competitor Content Analysis Summary ---\n" ++
  format_competitor_content scraped_data ++
  "\n\nGenerated on: " ++ timestamp ++ "\n"

/-! ## Fetchers (`serp.py` and the scraping loops of `analyzer.py`)

A network call is an oracle indexed by the attempt number; `Except.error`
models a raised request exception. -/

/-- An HTTP response of the search provider: status code and decoded JSON
body. -/
structure HttpResp where
  status : Nat
  json : SerpData

/-- The empty dictionary returned on failure paths of `get_search_results`. -/
def emptySerp : SerpData :=
  { organic_results := none, related_questions := none
    related_searches := none, search_parameters := none }

/-- The retry loop of `get_search_results`: `remaining` attempts left,
`i` the current attempt index.  A 200 response returns its body; a non-200
response falls through to the next attempt; an exception on the last
attempt returns the empty dictionary, otherwise sleeps and retries; a loop
that exhausts all attempts returns the empty dictionary. -/
def serpAttempt (fetch : Nat → Except String HttpResp) : Nat → Nat → SerpData
  | 0, _ => emptySerp
  | r + 1, i =>
    match fetch i with
    | .ok response => if response.status = 200 then response.json else serpAttempt fetch r (i + 1)
    | .error _ => if r = 0 then emptySerp else serpAttempt fetch r (i + 1)

/-- `get_search_results`: missing API key short-circuits to the empty
dictionary, otherwise up to `max_retries = 3` attempts. -/
def get_search_results (apiKey : String) (fetch : Nat → Except String HttpResp) : SerpData :=
  if apiKey = "" then emptySerp else serpAttempt fetch 3 0

/-- A response of the scraping provider (`html` and/or `markdown` keys). -/
structure ScrapeResult where
  html : Option String
  markdown : Option String

/-- The inner retry loop shared by `scrape_competitor_content` and
`scrape_citations`: on success, build the `{url, content, analysis}`
profile and break; on an exception, give up (yielding nothing for this
URL) once the last attempt fails, otherwise sleep and retry. -/
def scrapeAttempt (soup : SoupLib) (fetch : String → Nat → Except String ScrapeResult)
    (url : String) : Nat → Nat → Option Profile
  | 0, _ => none
  | r + 1, i =>
    match fetch url i with
    | .ok result =>
      let content := result.html.getD (result.markdown.getD "")
      some { url := url, content := content, analysis := analyze_content soup content }
    | .error _ => if r = 0 then none else scrapeAttempt soup fetch url r (i + 1)

/-- `scrape_competitor_content`: appends one profile per URL whose scrape
eventually succeeds; a URL whose attempts are exhausted is logged and
skipped, and the loop continues with the remaining URLs. -/
def scrape_competitor_content (soup : SoupLib)
    (fetch : String → Nat → Except String ScrapeResult) : List String → List Profile
  | [] => []
  | url :: rest =>
    match scrapeAttempt soup fetch url 3 0 with
    | some p => p :: scrape_competitor_content soup fetch rest
    | none => scrape_competitor_content soup fetch rest

/-- `scrape_citations`: the same loop as `scrape_competitor_content`, run
over the citation URLs. -/
def scrape_citations (soup : SoupLib)
    (fetch : String → Nat → Except String ScrapeResult) : List String → List Profile
  | [] => []
  | url :: rest =>
    match scrapeAttempt soup fetch url 3 0 with
    | some p => p :: scrape_citations soup fetch rest
    | none => scrape_citations soup fetch rest

/-! ## Blog stage (`main_streamlit.py`) -/

/-- The characters of `<think>`. -/
def thinkOpen : List Char := "<think>".data

/-- The characters of `</think>`. -/
def thinkClose : List Char := "</think>".data

/-- The characters of the research-report banner. -/
def reportBanner : List Char := "=== Research Report ===".data

/-- The characters of the competitor-summary marker. -/
def competitorMarker : List Char := "--- Competitor Content Analysis Summary ---".data

/-- `re.sub(r'<think>.*?</think>', '', s, flags=re.DOTALL)`: repeatedly
delete from the leftmost `<think>` to the first `</think>` after it.
Fuelled structural recursion; each step consumes at least the two
delimiters, so `fuel = cs.length + 1` runs to completion. -/
def removeThinkSpansF : Nat → List Char → List Char
  | 0, cs => cs
  | fuel + 1, cs =>
    match findSubIdx thinkOpen cs with
    | none => cs
    | some i =>
      match findSubIdx thinkClose (cs.drop (i + thinkOpen.length)) with
      | none => cs
      | some j =>
        cs.take i ++
          removeThinkSpansF fuel ((cs.drop (i + thinkOpen.length)).drop (j + thinkClose.length))

/-- The `<think>…</think>` span removal on character lists. -/
def removeThinkSpans (cs : List Char) : List Char :=
  removeThinkSpansF (cs.length + 1) cs

/-- `extract_research_content`: the cleanup applied to the research report
before it is handed to the blog generator. -/
def extract_research_content (research_text : String) : String :=
  let t0 := research_text.data
  let t1 :=
    if hasSub thinkOpen t0 && hasSub thinkClose t0 then removeThinkSpans t0 else t0
  let t2 := removeAllSub reportBanner t1
  let t3 :=
    if hasSub competitorMarker t2 then pyStrip (cutBefore competitorMarker t2) else t2
  String.mk (pyStrip t3)

/-- A content block of the blog model's reply (`message.content[i].text`). -/
structure BlogBlock where
  text : String

/-- The blog model's reply message. -/
structure BlogMessage where
  content : List BlogBlock

/-- `generate_blog_content`: a missing API key raises; a model-call
exception is re-raised as `Error generating content: …`; an empty reply
raises `No content received` (also wrapped by the re-raise); otherwise the
first content block's text is returned.  There is no degrade-to-empty
fallback. -/
def generate_blog_content (anthropicKey : String)
    (call : Except String BlogMessage) : Except String String :=
  if anthropicKey = "" then
    .error "ANTHROPIC_API_KEY not found in environment variables"
  else
    match call with
    | .error e => .error ("Error generating content: " ++ e)
    | .ok message =>
      match message.content with
      | [] => .error "Error generating content: No content received from Claude API"
      | block :: _ => .ok block.text

/-- The artifacts held by a run when the blog stage starts. -/
structure RunArtifacts where
  outline : String
  report : String
  blog : Option String
  deriving Repr, DecidableEq

/-- The blog stage of the run loop (the manual-generation path of
`main()` in `main_streamlit.py`, which wraps `generate_blog_content` in
its own try/except): on success the blog artifact is stored; on an error
the error message is surfaced to the operator and the previously produced
outline and research-report artifacts are left untouched. -/
def run_blog_stage (a : RunArtifacts) (anthropicKey : String)
    (call : Except String BlogMessage) : RunArtifacts × Option String :=
  match generate_blog_content anthropicKey call with
  | .ok b => ({ a with blog := some b }, none)
  | .error e => (a, some ("Error during content generation: " ++ e))

/-- The transformation the claim describes for `extract_research_content`:
remove every thinking-tagged span, then cut everything from the first
occurrence of the competitor-summary marker onward. -/
def claimedExtract (research_text : String) : String :=
  String.mk (cutBefore competitorMarker (removeThinkSpans research_text.data))

/-- The amended description: additionally every occurrence of the
`=== Research Report ===` banner is deleted and surrounding whitespace is
stripped. -/
def amendedExtract (research_text : String) : String :=
  String.mk (pyStrip (cutBefore competitorMarker
    (removeAllSub reportBanner (removeThinkSpans research_text.data))))

/-- The ranking contract of `Counter.most_common(10)` over a token list:
at most 10 distinct entries drawn from the tokens, counts non-increasing
along the output, and equal-count entries keeping their order of first
occurrence (the filter at each count value is a sublist of the
first-occurrence key order). -/
def rankedTop10 (tokens out : List String) : Prop :=
  out.length ≤ 10 ∧ out.Nodup ∧ (∀ w ∈ out, w ∈ tokens) ∧
    out.Chain' (fun a b => tokens.count b ≤ tokens.count a) ∧
    ∀ c : Nat, (out.filter (fun w => tokens.count w = c)).Sublist (firstKeys tokens)

/-- A parser oracle that raises on every input. -/
def soupFail : SoupLib :=
  { getText := fun _ => .error "parse error"
    elementCounts := fun _ => .error "parse error" }

/-- A parser oracle that extracts text and counts verbatim and never
raises. -/
def soupPlain : SoupLib :=
  { getText := fun s => .ok s
    elementCounts := fun _ => .ok { lists := 0, tables := 0, images := 0, links := 0, headings := 0 } }

/-- A scraping oracle that raises on every attempt for every URL. -/
def fetchFail : String → Nat → Except String ScrapeResult :=
  fun _ _ => .error "network down"

/-! ## Helpers and concrete data for the context-structure scenario -/

/-- Index of the first occurrence of `pat` in `s` (`str.find`), on strings. -/
def strIdxOf (s pat : String) : Option Nat :=
  findSubIdx pat.data s.data

/-- Whether every marker occurs in `s`, each strictly after the previous
one. -/
def markersInOrder (s : String) : List String → Bool
  | [] => true
  | [m] => (strIdxOf s m).isSome
  | m1 :: m2 :: ms =>
    match strIdxOf s m1, strIdxOf s m2 with
    | some i, some j => decide (i < j) && markersInOrder s (m2 :: ms)
    | _, _ => false

/-- The section markers of `prepare_llm_context`, in source order. -/
def contextMarkers : List String :=
  ["Search Query:", "Content Parameters:", "--- Top Ranking Articles ---",
   "--- People Also Ask Questions ---", "--- Related Searches ---",
   "--- Competitor Content Analysis ---", "--- Deep Research Thinking Process ---",
   "--- Citation Content from Deep Research ---"]

/-- Scenario input: 3 organic results, 2 PAA questions, 1 related search
for the query `concrete mixing ratios`. -/
def serpScenario : SerpData :=
  { search_parameters := some { q := some "concrete mixing ratios" }
    organic_results := some
      [{ title := some "T1", link := some "L1", date := none, snippet := none
         position := none, displayed_link := none },
       { title := some "T2", link := some "L2", date := none, snippet := none
         position := none, displayed_link := none },
       { title := some "T3", link := some "L3", date := none, snippet := none
         position := none, displayed_link := none }]
    related_questions := some
      [{ question := some "Q1", snippet := none, title := none },
       { question := some "Q2", snippet := none, title := none }]
    related_searches := some [{ query := some "R1" }] }

/-- Scenario input with 7 organic results (to exercise the top-5 cap). -/
def serpScenario7 : SerpData :=
  { search_parameters := some { q := some "concrete mixing ratios" }
    organic_results := some
      (List.range 7 |>.map (fun i =>
        { title := some ("T" ++ toString i), link := some ("L" ++ toString i)
          date := none, snippet := none, position := none, displayed_link := none }))
    related_questions := some []
    related_searches := some [] }

/-- Scenario competitor profiles with word counts 500 and 800. -/
def profilesScenario : List Profile :=
  [{ url := "u1", content := "c1"
     analysis := some
       { word_count := 500, common_phrases := [], content_structure := none
         key_topics := ["k1", "k2"], content_elements := none } },
   { url := "u2", content := "c2"
     analysis := some
       { word_count := 800, common_phrases := [], content_structure := none
         key_topics := [], content_elements := none } }]

/-- The assembled context of the scenario. -/
def contextScenario : String :=
  prepare_llm_context "informational" ["cement", "sand ratio"] profilesScenario
    serpScenario "THINKING" []

/-! ## Lemmas about `Counter.most_common` -/

theorem insertByCount_perm {α : Type} (x : α × Nat) (l : List (α × Nat)) :
    (insertByCount x l).Perm (x :: l) := by
  induction l with
  | nil => simp [insertByCount]
  | cons y ys ih =>
    by_cases h : y.2 ≤ x.2
    · simp [insertByCount, h]
    · simp only [insertByCount, h, if_false]
      exact (ih.cons y).trans (List.Perm.swap x y ys)

theorem sortByCountDesc_perm {α : Type} (l : List (α × Nat)) :
    (sortByCountDesc l).Perm l := by
  induction l with
  | nil => simp [sortByCountDesc]
  | cons x xs ih =>
    exact (insertByCount_perm x (sortByCountDesc xs)).trans (ih.cons x)

theorem insertByCount_sorted {α : Type} (x : α × Nat) (l : List (α × Nat))
    (hl : l.Pairwise (fun a b => b.2 ≤ a.2)) :
    (insertByCount x l).Pairwise (fun a b => b.2 ≤ a.2) := by
  induction l with
  | nil => simp [insertByCount]
  | cons y ys ih =>
    rcases List.pairwise_cons.mp hl with ⟨hy, hys⟩
    by_cases h : y.2 ≤ x.2
    · simp only [insertByCount, h, if_true]
      refine List.pairwise_cons.mpr ⟨?_, hl⟩
      intro z hz
      rcases List.mem_cons.mp hz with rfl | hz
      · exact h
      · exact le_trans (hy z hz) h
    · simp only [insertByCount, h, if_false]
      refine List.pairwise_cons.mpr ⟨?_, ih hys⟩
      intro z hz
      have hz2 := (insertByCount_perm x ys).mem_iff.mp hz
      rcases List.mem_cons.mp hz2 with rfl | hz2
      · omega
      · exact hy z hz2

theorem sortByCountDesc_sorted {α : Type} (l : List (α × Nat)) :
    (sortByCountDesc l).Pairwise (fun a b => b.2 ≤ a.2) := by
  induction l with
  | nil => simp [sortByCountDesc]
  | cons x xs ih => exact insertByCount_sorted x (sortByCountDesc xs) ih

theorem filter_insertByCount {α : Type} (c : Nat) (x : α × Nat) (l : List (α × Nat)) :
    (insertByCount x l).filter (fun p => p.2 = c) =
      if x.2 = c then x :: l.filter (fun p => p.2 = c)
      else l.filter (fun p => p.2 = c) := by
  induction l with
  | nil =>
    by_cases h : x.2 = c <;> simp [insertByCount, h]
  | cons y ys ih =>
    rw [insertByCount]
    by_cases h : y.2 ≤ x.2
    · rw [if_pos h]
      by_cases hx : x.2 = c
      · simp [List.filter_cons, hx]
      · simp [List.filter_cons, hx]
    · rw [if_neg h]
      by_cases hy : y.2 = c
      · have hx : ¬ x.2 = c := by omega
        simp [List.filter_cons, hy, hx, ih]
      · by_cases hx : x.2 = c <;> simp [List.filter_cons, hy, hx, ih]

theorem filter_sortByCountDesc {α : Type} (c : Nat) (l : List (α × Nat)) :
    (sortByCountDesc l).filter (fun p => p.2 = c) = l.filter (fun p => p.2 = c) := by
  induction l with
  | nil => simp [sortByCountDesc]
  | cons x xs ih =>
    by_cases hx : x.2 = c <;>
      simp [sortByCountDesc, filter_insertByCount, hx, ih]

theorem mem_firstKeysF {α : Type} [DecidableEq α] (fuel : Nat) :
    ∀ (l : List α), ∀ a ∈ firstKeysF fuel l, a ∈ l := by
  induction fuel with
  | zero => intro l a ha; simp [firstKeysF] at ha
  | succ n ih =>
    intro l a ha
    cases l with
    | nil => simp [firstKeysF] at ha
    | cons x xs =>
      simp only [firstKeysF, List.mem_cons] at ha
      rcases ha with rfl | ha
      · exact List.mem_cons_self a xs
      · exact List.mem_cons_of_mem x (List.mem_of_mem_filter (ih _ a ha))

theorem mem_firstKeys {α : Type} [DecidableEq α] (l : List α) :
    ∀ a ∈ firstKeys l, a ∈ l :=
  mem_firstKeysF l.length l

theorem firstKeysF_nodup {α : Type} [DecidableEq α] (fuel : Nat) :
    ∀ (l : List α), (firstKeysF fuel l).Nodup := by
  induction fuel with
  | zero => intro l; simp [firstKeysF]
  | succ n ih =>
    intro l
    cases l with
    | nil => simp [firstKeysF]
    | cons x xs =>
      simp only [firstKeysF, List.nodup_cons]
      refine ⟨fun hx => ?_, ih _⟩
      have := mem_firstKeysF n _ x hx
      simp at this

theorem firstKeys_nodup {α : Type} [DecidableEq α] (l : List α) :
    (firstKeys l).Nodup :=
  firstKeysF_nodup l.length l

theorem pairwise_imp_mem {α : Type} {R S : α → α → Prop} {l : List α}
    (h : ∀ a ∈ l, ∀ b ∈ l, R a b → S a b) (hp : l.Pairwise R) : l.Pairwise S := by
  induction l with
  | nil => simp
  | cons x xs ih =>
    rcases List.pairwise_cons.mp hp with ⟨hx, hxs⟩
    refine List.pairwise_cons.mpr ⟨?_, ?_⟩
    · intro b hb
      exact h x (List.mem_cons_self x xs) b (List.mem_cons_of_mem x hb) (hx b hb)
    · exact ih (fun a ha b hb => h a (List.mem_cons_of_mem x ha) b (List.mem_cons_of_mem x hb)) hxs

theorem mostCommon_rankedTop10 (xs : List String) : rankedTop10 xs (mostCommon 10 xs) := by
  have hperm := sortByCountDesc_perm ((firstKeys xs).map (fun k => (k, xs.count k)))
  set pairs := (firstKeys xs).map (fun k => (k, xs.count k)) with hpairs
  set sorted := sortByCountDesc pairs with hsorted
  have hsnd : ∀ p ∈ sorted, p.2 = xs.count p.1 := by
    intro p hp
    have hp2 : p ∈ pairs := hperm.mem_iff.mp hp
    rcases List.mem_map.mp hp2 with ⟨k, _, rfl⟩
    rfl
  have hfst_gen : ∀ l : List String, (l.map (fun k => (k, xs.count k))).map Prod.fst = l := by
    intro l
    induction l with
    | nil => rfl
    | cons a t ih => simp only [List.map_cons, ih]
  have hfst_pairs : pairs.map Prod.fst = firstKeys xs := by
    rw [hpairs]
    exact hfst_gen (firstKeys xs)
  have hout : mostCommon 10 xs = (sorted.take 10).map Prod.fst := rfl
  refine ⟨?_, ?_, ?_, ?_, ?_⟩
  · rw [hout]
    simp only [List.length_map, List.length_take]
    omega
  · rw [hout, List.map_take]
    refine List.Nodup.sublist (List.take_sublist _ _) ?_
    refine ((hperm.map Prod.fst).nodup_iff).mpr ?_
    rw [hfst_pairs]
    exact firstKeys_nodup xs
  · intro w hw
    rw [hout, List.map_take] at hw
    have hw2 := (List.take_sublist _ _).mem hw
    have hw3 : w ∈ pairs.map Prod.fst := (hperm.map Prod.fst).mem_iff.mp hw2
    rw [hfst_pairs] at hw3
    exact mem_firstKeys xs w hw3
  · rw [hout]
    refine List.Pairwise.chain' ?_
    rw [List.pairwise_map]
    have h1 : (sorted.take 10).Pairwise (fun a b => b.2 ≤ a.2) :=
      (sortByCountDesc_sorted pairs).sublist (List.take_sublist _ _)
    refine pairwise_imp_mem ?_ h1
    intro a ha b hb hab
    have ha2 := hsnd a ((List.take_sublist _ _).mem ha)
    have hb2 := hsnd b ((List.take_sublist _ _).mem hb)
    omega
  · intro c
    rw [hout]
    have h1 : ((sorted.take 10).map Prod.fst).filter (fun w => xs.count w = c) =
        ((sorted.take 10).filter (fun p => xs.count p.1 = c)).map Prod.fst := by
      rw [List.filter_map]
      rfl
    have h2 : (sorted.take 10).filter (fun p => xs.count p.1 = c) =
        (sorted.take 10).filter (fun p => p.2 = c) := by
      refine List.filter_congr ?_
      intro p hp
      have := hsnd p ((List.take_sublist _ _).mem hp)
      simp [this]
    rw [h1, h2]
    have h3 : ((sorted.take 10).filter (fun p => p.2 = c)).Sublist
        (sorted.filter (fun p => p.2 = c)) :=
      (List.take_sublist _ _).filter _
    have h4 : sorted.filter (fun p => p.2 = c) = pairs.filter (fun p => p.2 = c) := by
      rw [hsorted]
      exact filter_sortByCountDesc c pairs
    have h5 : (pairs.filter (fun p => p.2 = c)).Sublist pairs := List.filter_sublist _
    have h6 := (h3.trans (h4 ▸ h5)).map Prod.fst
    rw [hfst_pairs] at h6
    exact h6

/-- `foldl`-with-append, the Python `for … append` loop, is `map`. -/
theorem foldl_append_eq_map {β γ : Type} (f : β → γ) (l : List β) (init : List γ) :
    l.foldl (fun acc x => acc ++ [f x]) init = init ++ l.map f := by
  induction l generalizing init with
  | nil => simp
  | cons x xs ih => simp [ih]

/-! ## Claim theorems -/

/-- C1: For every input string passed as raw scraped content,
`analyze_content` never raises: whatever the external parser does
(including raising on malformed markup) and whatever the content
(including the empty string), it returns either the empty dictionary or a
well-formed analysis dictionary whose ranked lists respect the
`most_common(10)` bound. -/
theorem analyze_content_never_raises (soup : SoupLib) (content : String) :
    analyze_content soup content = none ∨
      ∃ a, analyze_content soup content = some a ∧
        a.common_phrases.length ≤ 10 ∧ a.key_topics.length ≤ 10 ∧
        a.word_count = (pySplitWs (if (soup.getText content).toOption.getD "" = ""
          then content else (soup.getText content).toOption.getD "").data).length := by
  unfold analyze_content
  cases h : soup.getText content with
  | error e => exact Or.inl rfl
  | ok t =>
    refine Or.inr ⟨_, rfl, ?_, ?_, ?_⟩
    · exact (mostCommon_rankedTop10 _).1
    · exact (mostCommon_rankedTop10 _).1
    · rfl

/-- C2: `extract_key_topics` and `extract_common_phrases` each return at
most 10 distinct entries drawn from the tokens of the case-folded input,
with counts non-increasing along the list and equal-count entries in order
of first occurrence, and two calls on identical input return identical
lists. -/
theorem most_common_ranking_contract (text : String) :
    rankedTop10 (wordTokens (pyLower text)) (extract_key_topics text) ∧
      rankedTop10 (phraseTokens (pyLower text)) (extract_common_phrases text) ∧
      (∀ text2, text = text2 →
        extract_key_topics text = extract_key_topics text2 ∧
          extract_common_phrases text = extract_common_phrases text2) :=
  ⟨mostCommon_rankedTop10 _, mostCommon_rankedTop10 _,
    fun _ h => by rw [h]; exact ⟨rfl, rfl⟩⟩

/-- Witness for C2 at a concrete input. -/
theorem most_common_ranking_contract_witness :
    extract_key_topics "b a a c b a" = extract_key_topics "b a a c b a" ∧
      rankedTop10 (wordTokens (pyLower "b a a c b a")) (extract_key_topics "b a a c b a") :=
  ⟨((most_common_ranking_contract "b a a c b a").2.2 "b a a c b a" rfl).1,
    (most_common_ranking_contract "b a a c b a").1⟩

/-- C5: `prepare_llm_context` is deterministic: identical profiles,
search-result data, research thinking, citation profiles, intent and
secondary keywords give byte-identical context strings. -/
theorem prepare_llm_context_deterministic
    (i1 i2 : String) (k1 k2 : List String) (p1 p2 : List Profile)
    (s1 s2 : SerpData) (d1 d2 : String) (c1 c2 : List Profile)
    (hi : i1 = i2) (hk : k1 = k2) (hp : p1 = p2) (hs : s1 = s2)
    (hd : d1 = d2) (hc : c1 = c2) :
    prepare_llm_context i1 k1 p1 s1 d1 c1 = prepare_llm_context i2 k2 p2 s2 d2 c2 := by
  rw [hi, hk, hp, hs, hd, hc]

/-- Witness for C5 at concrete inputs. -/
theorem prepare_llm_context_deterministic_witness :
    prepare_llm_context "informational" ["k"] [] emptySerp "thinking" [] =
      prepare_llm_context "informational" ["k"] [] emptySerp "thinking" [] :=
  prepare_llm_context_deterministic _ _ _ _ _ _ _ _ _ _ _ _
    rfl rfl rfl rfl rfl rfl

/-- C9: `format_citation_data` and `format_competitor_content` are the
same function: on every profile list they produce identical strings (the
same per-profile URL / word-count / top-5-key-topics summary blocks joined
by blank lines). -/
theorem citation_format_eq_competitor_format (profiles : List Profile) :
    format_citation_data profiles = format_competitor_content profiles := rfl

/-- C10: `extract_serp_data` preserves the length and order of the three
input lists, replaces absent per-entry fields by the empty string, replaces
absent top-level keys by an empty list or map, and is total (never
raises). -/
theorem extract_serp_data_shape (data : SerpData) :
    extract_organic_results data =
      (data.organic_results.getD []).map (fun article =>
        { title := article.title.getD "", link := article.link.getD ""
          date := article.date.getD "", snippet := article.snippet.getD ""
          position := article.position.getD ""
          displayed_link := article.displayed_link.getD "" }) ∧
    extract_paa_questions data =
      (data.related_questions.getD []).map (fun question =>
        { question := question.question.getD "", snippet := question.snippet.getD ""
          title := question.title.getD "" }) ∧
    extract_related_searches data =
      (data.related_searches.getD []).map (fun search => { query := search.query.getD "" }) ∧
    (extract_serp_data data).organic_results.length =
      (data.organic_results.getD []).length ∧
    (extract_serp_data data).paa_questions.length =
      (data.related_questions.getD []).length ∧
    (extract_serp_data data).related_searches.length =
      (data.related_searches.getD []).length ∧
    (extract_serp_data data).search_parameters = data.search_parameters.getD { q := none } ∧
    extract_serp_data
        { organic_results := none, related_questions := none
          related_searches := none, search_parameters := none } =
      { organic_results := [], paa_questions := [], related_searches := []
        search_parameters := { q := none } } := by
  have h1 := foldl_append_eq_map (fun article : OrganicIn =>
    ({ title := article.title.getD "", link := article.link.getD ""
       date := article.date.getD "", snippet := article.snippet.getD ""
       position := article.position.getD ""
       displayed_link := article.displayed_link.getD "" } : OrganicOut))
    (data.organic_results.getD []) []
  have h2 := foldl_append_eq_map (fun question : QuestionIn =>
    ({ question := question.question.getD "", snippet := question.snippet.getD ""
       title := question.title.getD "" } : QuestionOut))
    (data.related_questions.getD []) []
  rw [List.nil_append] at h1 h2
  refine ⟨h1, h2, rfl, ?_, ?_, ?_, rfl, rfl⟩
  · simpa using congrArg List.length h1
  · simpa using congrArg List.length h2
  · show (extract_related_searches data).length = _
    rw [extract_related_searches, List.length_map]

/-- C3: a fetch that fails on the first two attempts and succeeds on the
third returns the successful result with no error observed by the caller
(both for the search fetcher and for the per-URL scraping loop), and a
fetch that fails on all 3 attempts yields the empty result for that item
while the run continues with the remaining URLs. -/
theorem fetch_retry_semantics :
    (∀ (key : String) (fetch : Nat → Except String HttpResp) (e0 e1 : String) (resp : HttpResp),
      key ≠ "" → fetch 0 = .error e0 → fetch 1 = .error e1 → fetch 2 = .ok resp →
      resp.status = 200 → get_search_results key fetch = resp.json) ∧
    (∀ (key : String) (fetch : Nat → Except String HttpResp) (e0 e1 e2 : String),
      key ≠ "" → fetch 0 = .error e0 → fetch 1 = .error e1 → fetch 2 = .error e2 →
      get_search_results key fetch = emptySerp) ∧
    (∀ (soup : SoupLib) (fetch : String → Nat → Except String ScrapeResult)
      (url : String) (rest : List String) (e0 e1 : String) (res : ScrapeResult),
      fetch url 0 = .error e0 → fetch url 1 = .error e1 → fetch url 2 = .ok res →
      scrape_competitor_content soup fetch (url :: rest) =
        { url := url, content := res.html.getD (res.markdown.getD "")
          analysis := analyze_content soup (res.html.getD (res.markdown.getD "")) } ::
          scrape_competitor_content soup fetch rest) ∧
    (∀ (soup : SoupLib) (fetch : String → Nat → Except String ScrapeResult)
      (url : String) (rest : List String) (e0 e1 e2 : String),
      fetch url 0 = .error e0 → fetch url 1 = .error e1 → fetch url 2 = .error e2 →
      scrape_competitor_content soup fetch (url :: rest) =
        scrape_competitor_content soup fetch rest) := by
  refine ⟨?_, ?_, ?_, ?_⟩
  · intro key fetch e0 e1 resp hk h0 h1 h2 hst
    simp [get_search_results, serpAttempt, hk, h0, h1, h2, hst]
  · intro key fetch e0 e1 e2 hk h0 h1 h2
    simp [get_search_results, serpAttempt, hk, h0, h1, h2]
  · intro soup fetch url rest e0 e1 res h0 h1 h2
    simp [scrape_competitor_content, scrapeAttempt, h0, h1, h2]
  · intro soup fetch url rest e0 e1 e2 h0 h1 h2
    simp [scrape_competitor_content, scrapeAttempt, h0, h1, h2]

/-- Witness for C3 at concrete oracles. -/
theorem fetch_retry_semantics_witness :
    get_search_results "k"
        (fun i => if i < 2 then .error "timeout" else .ok { status := 200, json := emptySerp }) =
      emptySerp ∧
    scrape_competitor_content soupPlain fetchFail ["https://a.example"] =
      scrape_competitor_content soupPlain fetchFail [] := by
  constructor
  · exact fetch_retry_semantics.1 "k"
      (fun i => if i < 2 then .error "timeout" else .ok { status := 200, json := emptySerp })
      "timeout" "timeout" { status := 200, json := emptySerp }
      (by decide) rfl rfl rfl rfl
  · exact fetch_retry_semantics.2.2.2 soupPlain fetchFail "https://a.example" []
      "network down" "network down" "network down" rfl rfl rfl

/-- C4 counterexample: a URL whose scrape fails on all attempts is omitted
from the returned list, so the output does not have one profile per input
URL (for `scrape_competitor_content` and `scrape_citations` alike). -/
theorem scrape_profile_per_url_counterexample :
    (scrape_competitor_content soupPlain fetchFail ["https://a.example"]).length ≠
        (["https://a.example"] : List String).length ∧
      (scrape_citations soupPlain fetchFail ["https://a.example"]).length ≠
        (["https://a.example"] : List String).length := by
  constructor
  · show (scrape_competitor_content soupPlain fetchFail ["https://a.example"]).length ≠ 1
    simp [scrape_competitor_content, scrapeAttempt, fetchFail]
  · show (scrape_citations soupPlain fetchFail ["https://a.example"]).length ≠ 1
    simp [scrape_citations, scrapeAttempt, fetchFail]

/-- C4 (amended): `scrape_competitor_content` and `scrape_citations`
return one profile per input URL whose scrape eventually succeeds: both
loops compute exactly the per-URL `filterMap` of the retry attempt, a URL
whose first success comes at attempt `k < 3` (after `k` raises)
contributes precisely its `{url, content, analysis}` profile, a URL that
fails on all retry attempts yields `none` and so is omitted from the
returned list, and its failure is local — the remaining URLs are processed
exactly as if the failing URL were absent. -/
theorem scrape_profile_per_successful_url :
    (∀ (soup : SoupLib) (fetch : String → Nat → Except String ScrapeResult)
      (urls : List String),
      scrape_competitor_content soup fetch urls =
          urls.filterMap (fun u => scrapeAttempt soup fetch u 3 0) ∧
        scrape_citations soup fetch urls =
          urls.filterMap (fun u => scrapeAttempt soup fetch u 3 0)) ∧
    (∀ (soup : SoupLib) (fetch : String → Nat → Except String ScrapeResult)
      (u : String) (k : Nat) (res : ScrapeResult),
      k < 3 → (∀ i, i < k → ∃ e, fetch u i = .error e) → fetch u k = .ok res →
      scrapeAttempt soup fetch u 3 0 =
        some { url := u, content := res.html.getD (res.markdown.getD "")
               analysis := analyze_content soup (res.html.getD (res.markdown.getD "")) }) ∧
    (∀ (soup : SoupLib) (fetch : String → Nat → Except String ScrapeResult)
      (u : String), (∀ i, i < 3 → ∃ e, fetch u i = .error e) →
      scrapeAttempt soup fetch u 3 0 = none) ∧
    (∀ (soup : SoupLib) (fetch : String → Nat → Except String ScrapeResult)
      (us vs : List String) (u : String),
      (∀ i, i < 3 → ∃ e, fetch u i = .error e) →
      scrape_competitor_content soup fetch (us ++ u :: vs) =
          scrape_competitor_content soup fetch (us ++ vs) ∧
        scrape_citations soup fetch (us ++ u :: vs) =
          scrape_citations soup fetch (us ++ vs)) := by
  have hmap : ∀ (soup : SoupLib) (fetch : String → Nat → Except String ScrapeResult)
      (urls : List String),
      scrape_competitor_content soup fetch urls =
          urls.filterMap (fun u => scrapeAttempt soup fetch u 3 0) ∧
        scrape_citations soup fetch urls =
          urls.filterMap (fun u => scrapeAttempt soup fetch u 3 0) := by
    intro soup fetch urls
    induction urls with
    | nil => exact ⟨rfl, rfl⟩
    | cons u rest ih =>
      rw [scrape_competitor_content, scrape_citations, List.filterMap_cons]
      cases hu : scrapeAttempt soup fetch u 3 0 <;> simp [ih.1, ih.2]
  have hnone : ∀ (soup : SoupLib) (fetch : String → Nat → Except String ScrapeResult)
      (u : String), (∀ i, i < 3 → ∃ e, fetch u i = .error e) →
      scrapeAttempt soup fetch u 3 0 = none := by
    intro soup fetch u h
    obtain ⟨e0, h0⟩ := h 0 (by omega)
    obtain ⟨e1, h1⟩ := h 1 (by omega)
    obtain ⟨e2, h2⟩ := h 2 (by omega)
    simp [scrapeAttempt, h0, h1, h2]
  refine ⟨hmap, ?_, hnone, ?_⟩
  · intro soup fetch u k res hk hprev hok
    interval_cases k
    · simp [scrapeAttempt, hok]
    · obtain ⟨e0, h0⟩ := hprev 0 (by omega)
      simp [scrapeAttempt, h0, hok]
    · obtain ⟨e0, h0⟩ := hprev 0 (by omega)
      obtain ⟨e1, h1⟩ := hprev 1 (by omega)
      simp [scrapeAttempt, h0, h1, hok]
  · intro soup fetch us vs u h
    have hn := hnone soup fetch u h
    constructor
    · rw [(hmap soup fetch (us ++ u :: vs)).1, (hmap soup fetch (us ++ vs)).1,
        List.filterMap_append, List.filterMap_append, List.filterMap_cons, hn]
    · rw [(hmap soup fetch (us ++ u :: vs)).2, (hmap soup fetch (us ++ vs)).2,
        List.filterMap_append, List.filterMap_append, List.filterMap_cons, hn]

/-- Witness for C4's amended theorem at concrete oracles: a URL succeeding
on the third attempt contributes exactly its profile, and an
always-failing URL is omitted while the batch continues. -/
theorem scrape_profile_per_successful_url_witness :
    scrapeAttempt soupPlain
        (fun _ i => if i < 2 then .error "timeout"
          else .ok { html := some "x", markdown := none }) "u" 3 0 =
      some { url := "u", content := "x", analysis := analyze_content soupPlain "x" } ∧
    scrape_competitor_content soupPlain fetchFail ["https://b.example"] =
      scrape_competitor_content soupPlain fetchFail [] := by
  constructor
  · exact scrape_profile_per_successful_url.2.1 soupPlain
      (fun _ i => if i < 2 then .error "timeout"
        else .ok { html := some "x", markdown := none }) "u" 2
      { html := some "x", markdown := none }
      (by omega) (fun i hi => ⟨"timeout", by simp [hi]⟩) rfl
  · exact (scrape_profile_per_successful_url.2.2.2 soupPlain fetchFail [] []
      "https://b.example" (fun _ _ => ⟨"network down", rfl⟩)).1

/-- C7: if the blog-generation model call fails or returns no content,
`generate_blog_content` propagates an error (no degrade-to-empty
fallback), and the outline and research-report artifacts produced before
the blog stage are unchanged afterwards. -/
theorem blog_failure_raises_and_keeps_artifacts
    (a : RunArtifacts) (key : String) (call : Except String BlogMessage)
    (h : (∃ e, call = .error e) ∨ ∃ m, call = .ok m ∧ m.content = []) :
    (∃ msg, generate_blog_content key call = .error msg) ∧
      (run_blog_stage a key call).1.outline = a.outline ∧
      (run_blog_stage a key call).1.report = a.report ∧
      (run_blog_stage a key call).2.isSome = true := by
  have hgen : ∃ msg, generate_blog_content key call = .error msg := by
    by_cases hk : key = ""
    · exact ⟨"ANTHROPIC_API_KEY not found in environment variables",
        by simp [generate_blog_content, hk]⟩
    · rcases h with ⟨e, rfl⟩ | ⟨m, rfl, hm⟩
      · exact ⟨"Error generating content: " ++ e, by simp [generate_blog_content, hk]⟩
      · exact ⟨"Error generating content: No content received from Claude API",
          by simp [generate_blog_content, hk, hm]⟩
  obtain ⟨msg, hmsg⟩ := hgen
  exact ⟨⟨msg, hmsg⟩, by simp [run_blog_stage, hmsg], by simp [run_blog_stage, hmsg],
    by simp [run_blog_stage, hmsg]⟩

/-! ## Lemmas for the research-content extraction (C8) -/

theorem dropWhile_head_false (p : Char → Bool) (l : List Char) (c : Char) (rest : List Char)
    (h : l.dropWhile p = c :: rest) : p c = false := by
  induction l with
  | nil => simp at h
  | cons x xs ih =>
    by_cases hx : p x
    · rw [List.dropWhile_cons, if_pos hx] at h
      exact ih h
    · rw [List.dropWhile_cons, if_neg hx] at h
      cases h
      simpa using hx

theorem dropWhile_rdropWhile_dropWhile (p : Char → Bool) (cs : List Char) :
    (List.rdropWhile p (cs.dropWhile p)).dropWhile p =
      List.rdropWhile p (cs.dropWhile p) := by
  rcases hb : List.rdropWhile p (cs.dropWhile p) with _ | ⟨c, rest⟩
  · rfl
  · have hpre := List.rdropWhile_prefix p (cs.dropWhile p)
    rw [hb] at hpre
    obtain ⟨t, ht⟩ := hpre
    have hcs : cs.dropWhile p = c :: (rest ++ t) := by
      rw [← ht]
      simp
    have hc := dropWhile_head_false p cs c (rest ++ t) hcs
    rw [List.dropWhile_cons, if_neg (by simp [hc])]

theorem pyStrip_eq_rdropWhile (cs : List Char) :
    pyStrip cs = List.rdropWhile isPySpace (cs.dropWhile isPySpace) := rfl

/-- Python's `strip` is idempotent. -/
theorem pyStrip_idem (cs : List Char) : pyStrip (pyStrip cs) = pyStrip cs := by
  rw [pyStrip_eq_rdropWhile, pyStrip_eq_rdropWhile, dropWhile_rdropWhile_dropWhile]
  exact List.rdropWhile_idempotent isPySpace (cs.dropWhile isPySpace)

theorem hasSub_cons (pat : List Char) (c : Char) (cs : List Char)
    (h : hasSub pat cs = true) : hasSub pat (c :: cs) = true := by
  unfold hasSub at h ⊢
  rw [findSubIdx]
  by_cases hp : pat.isPrefixOf (c :: cs)
  · simp [hp]
  · cases hf : findSubIdx pat cs with
    | none =>
      rw [hf] at h
      simp at h
    | some k => simp [hp, hf]

theorem hasSub_drop (pat cs : List Char) (n : Nat)
    (h : hasSub pat (cs.drop n) = true) : hasSub pat cs = true := by
  induction cs generalizing n with
  | nil => simpa using h
  | cons c cs ih =>
    cases n with
    | zero => simpa using h
    | succ m =>
      simp only [List.drop_succ_cons] at h
      exact hasSub_cons pat c cs (ih m h)

/-- When the source's guard `'<think>' in s and '</think>' in s` is false,
the span removal leaves the text unchanged (also the behaviour of `re.sub`
itself, which then finds no match). -/
theorem removeThinkSpansF_guard (fuel : Nat) (cs : List Char)
    (h : (hasSub thinkOpen cs && hasSub thinkClose cs) = false) :
    removeThinkSpansF fuel cs = cs := by
  cases fuel with
  | zero => rfl
  | succ n =>
    rw [removeThinkSpansF]
    split
    · rfl
    · rename_i i ho
      split
      · rfl
      · rename_i j hc
        exfalso
        have hopen : hasSub thinkOpen cs = true := by
          unfold hasSub
          rw [ho]
          rfl
        have hclose : hasSub thinkClose cs = false := by
          rw [hopen] at h
          simpa using h
        have hsub : hasSub thinkClose (cs.drop (i + thinkOpen.length)) = true := by
          unfold hasSub
          rw [hc]
          rfl
        have hx := hasSub_drop thinkClose cs _ hsub
        rw [hclose] at hx
        exact Bool.noConfusion hx

theorem cutBefore_of_not_hasSub (pat cs : List Char) (h : hasSub pat cs = false) :
    cutBefore pat cs = cs := by
  unfold cutBefore
  cases hf : findSubIdx pat cs with
  | none => rfl
  | some i =>
    exfalso
    unfold hasSub at h
    rw [hf] at h
    simp at h

/-- C8 counterexample: on an input containing the research-report banner,
`extract_research_content` does not return the text with only
thinking-spans removed and the competitor-summary suffix cut off — it also
deletes the banner. -/
theorem extract_research_content_counterexample :
    extract_research_content "=== Research Report ===hi" ≠
      claimedExtract "=== Research Report ===hi" := by decide

/-- C8 (amended): for every research-report string,
`extract_research_content` returns the text with every thinking-tagged
span removed, every occurrence of the `=== Research Report ===` banner
deleted, everything from the first competitor-summary marker onward cut
off, and leading/trailing whitespace stripped. -/
theorem extract_research_content_amended (s : String) :
    extract_research_content s = amendedExtract s := by
  unfold extract_research_content amendedExtract
  by_cases hg : (hasSub thinkOpen s.data && hasSub thinkClose s.data) = true
  · simp only [hg, if_true]
    set t2 := removeAllSub reportBanner (removeThinkSpans s.data) with ht2
    by_cases hm : hasSub competitorMarker t2 = true
    · simp only [hm, if_true]
      rw [pyStrip_idem]
    · have hm2 : hasSub competitorMarker t2 = false := by simpa using hm
      simp only [hm2, Bool.false_eq_true, if_false]
      rw [cutBefore_of_not_hasSub competitorMarker t2 hm2]
  · have hg2 : (hasSub thinkOpen s.data && hasSub thinkClose s.data) = false := by
      simpa using hg
    have hrm : removeThinkSpans s.data = s.data :=
      removeThinkSpansF_guard _ _ hg2
    simp only [hg2, Bool.false_eq_true, if_false]
    rw [hrm]
    set t2 := removeAllSub reportBanner s.data with ht2
    by_cases hm : hasSub competitorMarker t2 = true
    · simp only [hm, if_true]
      rw [pyStrip_idem]
    · have hm2 : hasSub competitorMarker t2 = false := by simpa using hm
      simp only [hm2, Bool.false_eq_true, if_false]
      rw [cutBefore_of_not_hasSub competitorMarker t2 hm2]

/-- Witness for C7 at a concrete empty model reply. -/
theorem blog_failure_raises_and_keeps_artifacts_witness :
    (∃ msg, generate_blog_content "key" (.ok { content := [] }) = .error msg) ∧
      (run_blog_stage { outline := "o", report := "r", blog := none } "key"
        (.ok { content := [] })).1.outline = "o" :=
  ⟨(blog_failure_raises_and_keeps_artifacts
      { outline := "o", report := "r", blog := none } "key" (.ok { content := [] })
      (Or.inr ⟨{ content := [] }, rfl, rfl⟩)).1,
    (blog_failure_raises_and_keeps_artifacts
      { outline := "o", report := "r", blog := none } "key" (.ok { content := [] })
      (Or.inr ⟨{ content := [] }, rfl, rfl⟩)).2.1⟩

/-! ## Lemmas for the context section structure (C6) -/

theorem countNL_append (s t : String) : countNL (s ++ t) = countNL s + countNL t := by
  show (s.data ++ t.data).count '\n' = s.data.count '\n' + t.data.count '\n'
  rw [List.count_append]

theorem joinSep_foldl_shift (sep : String) (xs : List String) :
    ∀ (a b : String),
      xs.foldl (fun acc y => acc ++ sep ++ y) (a ++ b) =
        a ++ xs.foldl (fun acc y => acc ++ sep ++ y) b := by
  induction xs with
  | nil => intro a b; rfl
  | cons z zs ih =>
    intro a b
    simp only [List.foldl_cons]
    rw [String.append_assoc a b sep, String.append_assoc a (b ++ sep) z]
    exact ih a (b ++ sep ++ z)

theorem joinSep_cons_cons (sep x y : String) (ys : List String) :
    joinSep sep (x :: y :: ys) = x ++ sep ++ joinSep sep (y :: ys) := by
  show (y :: ys).foldl (fun acc z => acc ++ sep ++ z) x = _
  simp only [List.foldl_cons]
  rw [show x ++ sep ++ y = (x ++ sep) ++ y from rfl]
  rw [joinSep_foldl_shift sep ys (x ++ sep) y]
  rfl

theorem countNL_joinSep_nl (parts : List String) (hne : parts ≠ [])
    (hz : ∀ p ∈ parts, countNL p = 0) :
    countNL (joinSep "\n" parts) + 1 = parts.length := by
  induction parts with
  | nil => exact absurd rfl hne
  | cons x xs ih =>
    cases xs with
    | nil =>
      have hx := hz x (by simp)
      show countNL x + 1 = 1
      omega
    | cons y ys =>
      rw [joinSep_cons_cons, countNL_append, countNL_append]
      have hx := hz x (by simp)
      have hnl : countNL "\n" = 1 := by decide
      have hrest := ih (by simp) (fun p hp => hz p (List.mem_cons_of_mem _ hp))
      simp only [List.length_cons] at hrest ⊢
      omega

theorem joinSep_nlnl_data (strs : List String) :
    (joinSep "\n\n" strs).data = joinBlocks (strs.map String.data) := by
  induction strs with
  | nil => rfl
  | cons x xs ih =>
    cases xs with
    | nil => rfl
    | cons y ys =>
      rw [joinSep_cons_cons]
      show x.data ++ "\n\n".data ++ (joinSep "\n\n" (y :: ys)).data = _
      rw [ih]
      show x.data ++ ['\n', '\n'] ++ joinBlocks (y.data :: ys.map String.data) =
        joinBlocks (x.data :: y.data :: ys.map String.data)
      rw [joinBlocks, List.append_assoc]
      rfl

theorem hasSub_tail (pat : List Char) (c : Char) (cs : List Char)
    (h : hasSub pat (c :: cs) = false) : hasSub pat cs = false := by
  cases hcs : hasSub pat cs with
  | false => rfl
  | true =>
    have := hasSub_cons pat c cs hcs
    rw [h] at this
    exact Bool.noConfusion this

theorem findSubIdx_append_nlnl (a b : List Char)
    (ha : hasSub nlnl a = false) (hlast : a.getLast? ≠ some '\n') :
    findSubIdx nlnl (a ++ '\n' :: '\n' :: b) = some a.length := by
  induction a with
  | nil =>
    show findSubIdx nlnl ('\n' :: '\n' :: b) = some 0
    rw [findSubIdx, if_pos (by simp [nlnl, List.isPrefixOf])]
  | cons c a' ih =>
    cases a' with
    | nil =>
      have hc : c ≠ '\n' := by simpa using hlast
      show findSubIdx nlnl (c :: '\n' :: '\n' :: b) = some 1
      rw [findSubIdx, if_neg (by simp [nlnl, List.isPrefixOf]; intro h; exact absurd h.symm hc)]
      rw [show findSubIdx nlnl ('\n' :: '\n' :: b) = some 0 from
        by rw [findSubIdx, if_pos (by simp [nlnl, List.isPrefixOf])]]
      rfl
    | cons c2 a'' =>
      have hp : nlnl.isPrefixOf (c :: c2 :: (a'' ++ '\n' :: '\n' :: b)) = false := by
        by_contra hp
        rw [Bool.not_eq_false] at hp
        have hcc : c = '\n' ∧ c2 = '\n' := by
          simpa [nlnl, List.isPrefixOf, eq_comm] using
            (by simpa [nlnl, List.isPrefixOf] using hp : ('\n' = c ∧ '\n' = c2))
        have hocc : hasSub nlnl (c :: c2 :: a'') = true := by
          unfold hasSub
          rw [findSubIdx, if_pos (by simp [nlnl, List.isPrefixOf, hcc.1, hcc.2])]
          rfl
        rw [ha] at hocc
        exact Bool.noConfusion hocc
      show findSubIdx nlnl (c :: ((c2 :: a'') ++ '\n' :: '\n' :: b)) = some (a''.length + 1 + 1)
      rw [findSubIdx, if_neg (by simp [hp])]
      rw [ih (hasSub_tail nlnl c (c2 :: a'') ha) (by simpa using hlast)]
      rfl

theorem pySplitSubF_blocks (parts : List (List Char)) :
    ∀ (fuel : Nat), (joinBlocks parts).length < fuel → parts ≠ [] →
      (∀ p ∈ parts, hasSub nlnl p = false ∧ p.getLast? ≠ some '\n') →
      pySplitSubF nlnl fuel (joinBlocks parts) = parts := by
  induction parts with
  | nil => intro fuel _ hne _; exact absurd rfl hne
  | cons p ps ih =>
    intro fuel hf hne hgood
    cases fuel with
    | zero => omega
    | succ f =>
      cases ps with
      | nil =>
        show pySplitSubF nlnl (f + 1) p = [p]
        rw [pySplitSubF, if_neg (by decide)]
        have hno : findSubIdx nlnl p = none := by
          have hh := (hgood p (by simp)).1
          cases hfi : findSubIdx nlnl p with
          | none => rfl
          | some i =>
            unfold hasSub at hh
            rw [hfi] at hh
            simp at hh
        rw [hno]
      | cons q ps' =>
        show pySplitSubF nlnl (f + 1) (p ++ '\n' :: '\n' :: joinBlocks (q :: ps')) =
          p :: q :: ps'
        rw [pySplitSubF, if_neg (by decide)]
        rw [findSubIdx_append_nlnl p (joinBlocks (q :: ps'))
          (hgood p (by simp)).1 (hgood p (by simp)).2]
        have htake : (p ++ '\n' :: '\n' :: joinBlocks (q :: ps')).take p.length = p :=
          List.take_left p _
        have hdrop : (p ++ '\n' :: '\n' :: joinBlocks (q :: ps')).drop (p.length + nlnl.length) =
            joinBlocks (q :: ps') := by
          rw [show nlnl.length = 2 from rfl]
          rw [List.drop_append 2]
          rfl
        have hlen : (joinBlocks (q :: ps')).length < f := by
          have hjl : (joinBlocks (p :: q :: ps')).length =
              p.length + 2 + (joinBlocks (q :: ps')).length := by
            show (p ++ '\n' :: '\n' :: joinBlocks (q :: ps')).length = _
            simp
            omega
          omega
        show (p ++ '\n' :: '\n' :: joinBlocks (q :: ps')).take p.length ::
            pySplitSubF nlnl f
              ((p ++ '\n' :: '\n' :: joinBlocks (q :: ps')).drop (p.length + nlnl.length)) =
          p :: q :: ps'
        rw [htake, hdrop]
        rw [ih f hlen (by simp) (fun r hr => hgood r (List.mem_cons_of_mem _ hr))]

theorem pySplitSub_joinBlocks (parts : List (List Char)) (hne : parts ≠ [])
    (hgood : ∀ p ∈ parts, hasSub nlnl p = false ∧ p.getLast? ≠ some '\n') :
    pySplitSub nlnl (joinBlocks parts) = parts :=
  pySplitSubF_blocks parts _ (by omega) hne hgood

theorem format_competitor_content_blocks (profiles : List Profile) :
    format_competitor_content profiles =
      joinSep "\n\n" (profiles.map competitorSummaryLine) := by
  unfold format_competitor_content
  rw [foldl_append_eq_map, List.nil_append]

theorem format_citation_data_blocks (profiles : List Profile) :
    format_citation_data profiles =
      joinSep "\n\n" (profiles.map citationSummaryLine) := by
  unfold format_citation_data
  rw [foldl_append_eq_map, List.nil_append]

/-- Splitting the competitor section on blank lines recovers exactly one
block per profile, provided no block contains a blank line or ends in a
newline. -/
theorem competitor_blocks_count (profiles : List Profile) (hne : profiles ≠ [])
    (hgood : ∀ p ∈ profiles, hasSub nlnl (competitorSummaryLine p).data = false ∧
      (competitorSummaryLine p).data.getLast? ≠ some '\n') :
    (pySplitSub nlnl (format_competitor_content profiles).data).length = profiles.length := by
  rw [format_competitor_content_blocks, joinSep_nlnl_data, List.map_map]
  rw [pySplitSub_joinBlocks]
  · rw [List.length_map]
  · simpa using hne
  · intro b hb
    rcases List.mem_map.mp hb with ⟨pr, hpr, rfl⟩
    exact hgood pr hpr

/-- The same for the citation section. -/
theorem citation_blocks_count (profiles : List Profile) (hne : profiles ≠ [])
    (hgood : ∀ p ∈ profiles, hasSub nlnl (citationSummaryLine p).data = false ∧
      (citationSummaryLine p).data.getLast? ≠ some '\n') :
    (pySplitSub nlnl (format_citation_data profiles).data).length = profiles.length := by
  rw [format_citation_data_blocks, joinSep_nlnl_data, List.map_map]
  rw [pySplitSub_joinBlocks]
  · rw [List.length_map]
  · simpa using hne
  · intro b hb
    rcases List.mem_map.mp hb with ⟨pr, hpr, rfl⟩
    exact hgood pr hpr

set_option maxRecDepth 100000 in
/-- C6: for every input, `prepare_llm_context` is exactly the fixed
template — query, content parameters, top ranking articles, PAA questions,
related searches, competitor analysis, deep-research thinking, citation
content, in that order; `format_top_articles` reads only the first 5
results and emits one line each; the PAA, related-search, competitor and
citation sections hold exactly one line/block per input entry (for entries
that do not themselves contain newlines / blank-line separators); and in
the spec's scenario (3 organic results, 2 PAA questions, 1 related search,
2 competitor profiles with word counts 500 and 800) the counts are exactly
3 top-article lines (5 for the 7-result variant), 2 PAA lines, 1
related-search line and 2 competitor-summary blocks, with the markers in
the fixed order. -/
theorem context_section_structure :
    (∀ (article_intent : String) (secondary_keywords : List String)
      (scraped_data : List Profile) (serp_data : SerpData) (deep_thinking : String)
      (citation_data : List Profile),
      prepare_llm_context article_intent secondary_keywords scraped_data serp_data
          deep_thinking citation_data =
        "\nSearch Query: " ++ ((serp_data.search_parameters.getD { q := none }).q.getD "") ++
        "\n\nContent Parameters:\nArticle Intent: " ++ article_intent ++
        "\nSecondary Keywords: " ++ joinSep ", " secondary_keywords ++
        "\n\n--- Top Ranking Articles ---\n" ++
        format_top_articles (extract_serp_data serp_data).organic_results ++
        "\n\n--- People Also Ask Questions ---\n" ++
        format_paa_questions (extract_serp_data serp_data).paa_questions ++
        "\n\n--- Related Searches ---\n" ++
        format_related_searches (extract_serp_data serp_data).related_searches ++
        "\n\n--- Competitor Content Analysis ---\n" ++
        format_competitor_content scraped_data ++
        "\n\n--- Deep Research Thinking Process ---\n" ++ deep_thinking ++
        "\n\n--- Citation Content from Deep Research ---\n" ++
        format_citation_data citation_data ++ "\n") ∧
    (∀ results : List OrganicOut,
      format_top_articles results = format_top_articles (results.take 5)) ∧
    (∀ results : List OrganicOut, results ≠ [] →
      (∀ r ∈ results, countNL r.title = 0 ∧ countNL r.link = 0) →
      countNL (format_top_articles results) + 1 = min 5 results.length) ∧
    (∀ questions : List QuestionOut, questions ≠ [] →
      (∀ q ∈ questions, countNL q.question = 0) →
      countNL (format_paa_questions questions) + 1 = questions.length) ∧
    (∀ searches : List SearchOut, searches ≠ [] →
      (∀ s ∈ searches, countNL s.query = 0) →
      countNL (format_related_searches searches) + 1 = searches.length) ∧
    (∀ profiles : List Profile, profiles ≠ [] →
      (∀ p ∈ profiles, hasSub nlnl (competitorSummaryLine p).data = false ∧
        (competitorSummaryLine p).data.getLast? ≠ some '\n') →
      (pySplitSub nlnl (format_competitor_content profiles).data).length =
        profiles.length) ∧
    (∀ profiles : List Profile, profiles ≠ [] →
      (∀ p ∈ profiles, hasSub nlnl (citationSummaryLine p).data = false ∧
        (citationSummaryLine p).data.getLast? ≠ some '\n') →
      (pySplitSub nlnl (format_citation_data profiles).data).length = profiles.length) ∧
    countNL (format_top_articles (extract_serp_data serpScenario).organic_results) + 1 = 3 ∧
    countNL (format_top_articles (extract_serp_data serpScenario7).organic_results) + 1 = 5 ∧
    countNL (format_paa_questions (extract_serp_data serpScenario).paa_questions) + 1 = 2 ∧
    countNL (format_related_searches (extract_serp_data serpScenario).related_searches) + 1
      = 1 ∧
    (pySplitSub nlnl (format_competitor_content profilesScenario).data).length = 2 ∧
    (pySplitSub nlnl (format_citation_data profilesScenario).data).length = 2 ∧
    markersInOrder contextScenario contextMarkers = true := by
  refine ⟨?_, ?_, ?_, ?_, ?_, competitor_blocks_count, citation_blocks_count,
    by decide, by decide, by decide, by decide, by decide, by decide, by decide⟩
  · intro article_intent secondary_keywords scraped_data serp_data deep_thinking
      citation_data
    rfl
  · intro results
    simp [format_top_articles, List.take_take]
  · intro results hne hfree
    have h := countNL_joinSep_nl
      ((results.take 5).map (fun result =>
        "- " ++ result.title ++ " (URL: " ++ result.link ++ ")"))
      (by
        simp only [ne_eq, List.map_eq_nil, List.take_eq_nil_iff]
        simp [hne])
      (by
        intro p hp
        rcases List.mem_map.mp hp with ⟨r, hr, rfl⟩
        have hrr := hfree r (List.mem_of_mem_take hr)
        rw [countNL_append, countNL_append, countNL_append, countNL_append]
        have h1 : countNL "- " = 0 := by decide
        have h2 : countNL " (URL: " = 0 := by decide
        have h3 : countNL ")" = 0 := by decide
        omega)
    rw [List.length_map, List.length_take] at h
    exact h
  · intro questions hne hfree
    have h := countNL_joinSep_nl (questions.map (fun q => "- " ++ q.question))
      (by simp [hne])
      (by
        intro p hp
        rcases List.mem_map.mp hp with ⟨q, hq, rfl⟩
        have hqq := hfree q hq
        rw [countNL_append]
        have h1 : countNL "- " = 0 := by decide
        omega)
    rw [List.length_map] at h
    exact h
  · intro searches hne hfree
    have h := countNL_joinSep_nl (searches.map (fun s => "- " ++ s.query))
      (by simp [hne])
      (by
        intro p hp
        rcases List.mem_map.mp hp with ⟨s, hs, rfl⟩
        have hss := hfree s hs
        rw [countNL_append]
        have h1 : countNL "- " = 0 := by decide
        omega)
    rw [List.length_map] at h
    exact h

set_option maxRecDepth 100000 in
/-- Witness for C6's universal per-entry counts at the scenario data. -/
theorem context_section_structure_witness :
    countNL (format_top_articles (extract_serp_data serpScenario).organic_results) + 1 =
      min 5 (extract_serp_data serpScenario).organic_results.length ∧
    countNL (format_paa_questions (extract_serp_data serpScenario).paa_questions) + 1 =
      (extract_serp_data serpScenario).paa_questions.length ∧
    countNL (format_related_searches (extract_serp_data serpScenario).related_searches) + 1 =
      (extract_serp_data serpScenario).related_searches.length ∧
    (pySplitSub nlnl (format_competitor_content profilesScenario).data).length =
      profilesScenario.length ∧
    (pySplitSub nlnl (format_citation_data profilesScenario).data).length =
      profilesScenario.length :=
  ⟨context_section_structure.2.2.1 _ (by decide) (by decide),
   context_section_structure.2.2.2.1 _ (by decide) (by decide),
   context_section_structure.2.2.2.2.1 _ (by decide) (by decide),
   context_section_structure.2.2.2.2.2.1 _ (by decide) (by decide),
   context_section_structure.2.2.2.2.2.2.1 _ (by decide) (by decide)⟩

end SEOBlog
